import Mathlib

/-!
Shallow embedding of the gains-backend subscription / promo-code /
notification core, translated from the TypeScript source:

* `src/models/PromoCode.ts`   — promo-code document, `isValid`, `use`,
  `getDiscountInfo`, `findValidCode`
* `src/routes/promoCode.ts`   — `/apply` and `/:code/use` endpoints
* `src/routes/subscription.ts`— `/promo-code` endpoint and the Stripe
  webhook event switch
* `src/services/notificationService.ts` — progress-reminder and
  trial-expiry scheduler jobs

Dates/instants are modelled as integer millisecond timestamps where the
source compares `Date` values numerically, and as calendar triples
(`JsDate`) where the source performs `setMonth` / `setFullYear`
calendar arithmetic.  Account ids are `Nat`.
-/

namespace Gains

/-- Internal subscription status, from the `User` schema enum
`['free_trial', 'active', 'canceled', 'expired']`
(`src/models/User.ts`).  The spec's data model calls the first
status `trial`. -/
inductive SubStatus where
  | free_trial
  | active
  | canceled
  | expired
deriving DecidableEq, Repr

/-- Promo code type, from the `PromoCode` schema enum
(`src/models/PromoCode.ts`). -/
inductive PromoType where
  | free_month
  | free_year
  | lifetime
  | discount_percent
  | discount_amount
deriving DecidableEq, Repr

/-- A `PromoCode` document (the fields consulted by validation and
redemption), from `src/models/PromoCode.ts`.  `validFrom`/`validUntil`
are millisecond timestamps; `usageLimit = none` means unlimited. -/
structure PromoState where
  code : String
  type : PromoType
  value : Option Nat
  isActive : Bool
  usageLimit : Option Nat
  usedCount : Nat
  usedBy : List Nat
  validFrom : Int
  validUntil : Option Int
deriving DecidableEq, Repr

/-- Result of `PromoCodeSchema.methods.isValid`. -/
structure ValidationResult where
  valid : Bool
  reason : Option String
deriving DecidableEq, Repr

/-- Source `PromoCodeSchema.methods.isValid(userId?)`: the five checks in
source order — active flag, `validFrom > now`, `validUntil < now`,
usage limit reached, user already in `usedBy`. -/
def isValid (p : PromoState) (userId : Option Nat) (now : Int) : ValidationResult :=
  if !p.isActive then
    ⟨false, some "Promo code is not active"⟩
  else if decide (now < p.validFrom) then
    ⟨false, some "Promo code is not yet valid"⟩
  else if p.validUntil.elim false (fun vu => decide (vu < now)) then
    ⟨false, some "Promo code has expired"⟩
  else if p.usageLimit.elim false (fun l => decide (l ≤ p.usedCount)) then
    ⟨false, some "Promo code usage limit reached"⟩
  else if userId.elim false (fun u => p.usedBy.contains u) then
    ⟨false, some "You have already used this promo code"⟩
  else
    ⟨true, none⟩

/-- The mutation performed by `PromoCodeSchema.methods.use` once
validation has passed: `usedCount += 1; usedBy.push(userId)`. -/
def commitUse (p : PromoState) (userId : Nat) : PromoState :=
  { p with usedCount := p.usedCount + 1, usedBy := p.usedBy ++ [userId] }

/-- Source `PromoCodeSchema.methods.use(userId)`: validate, then mutate and
save; throws the validation reason on failure. -/
def use (p : PromoState) (userId : Nat) (now : Int) : Except String PromoState :=
  let validation := isValid p (some userId) now
  if validation.valid then
    Except.ok (commitUse p userId)
  else
    Except.error (validation.reason.getD "")

/-- One whole `use` call applied atomically (its `validate` and its
mutation adjacent, no interleaving); a failed call leaves the
document unchanged. -/
def redeem (p : PromoState) (userId : Nat) (now : Int) : PromoState :=
  match use p userId now with
  | Except.ok p' => p'
  | Except.error _ => p

/-- The ledger invariant stated in the spec: `usedCount ≤ usageLimit`
when a limit is set, and no account id appears twice in `usedBy`. -/
def promoInvariant (p : PromoState) : Prop :=
  (∀ l, p.usageLimit = some l → p.usedCount ≤ l) ∧ p.usedBy.Nodup

/-! ### Interleaving model for concurrent `use` calls

`use` performs its validation and its mutation as two separate
steps against the shared document (`this.isValid(userId)` then
`this.usedCount += 1; ...; this.save()`).  A concurrent execution is a
schedule of per-thread steps: each thread first validates against the
state it observes, then (if validation passed) commits its mutation. -/

/-- Program counter of one in-flight `use` call. -/
inductive ThreadPC where
  | start
  | validated (ok : Bool)
  | done
deriving DecidableEq, Repr

/-- Run one step of thread `i` (validate if not yet validated, commit
if validated successfully).  `uids` lists the account id each thread
redeems with. -/
def stepThread (uids : List Nat) (now : Int)
    (s : PromoState × List ThreadPC) (i : Nat) : PromoState × List ThreadPC :=
  match s.2.getD i ThreadPC.done with
  | ThreadPC.start =>
      (s.1, s.2.set i (ThreadPC.validated (isValid s.1 (some (uids.getD i 0)) now).valid))
  | ThreadPC.validated true =>
      (commitUse s.1 (uids.getD i 0), s.2.set i ThreadPC.done)
  | ThreadPC.validated false =>
      (s.1, s.2.set i ThreadPC.done)
  | ThreadPC.done => s

/-- Execute a schedule (a list of thread indices, each occurrence
running that thread's next step) from an initial document. -/
def runSchedule (uids : List Nat) (now : Int) (p0 : PromoState)
    (sched : List Nat) : PromoState × List ThreadPC :=
  sched.foldl (stepThread uids now) (p0, List.replicate uids.length ThreadPC.start)

/-! ### Discount info and `findValidCode` -/

/-- Result of `PromoCodeSchema.methods.getDiscountInfo`. -/
structure DiscountInfo where
  type : String
  value : Option Nat
  description : String
deriving DecidableEq, Repr

/-- JS `(v / 100).toFixed(2)` for an integer number of cents. -/
def centsToFixed2 (v : Nat) : String :=
  toString (v / 100) ++ "." ++ (if v % 100 < 10 then "0" else "") ++ toString (v % 100)

/-- JS string interpolation of a possibly-undefined number. -/
def optNatToString (v : Option Nat) : String :=
  match v with
  | some n => toString n
  | none => "undefined"

/-- Source `PromoCodeSchema.methods.getDiscountInfo()`. -/
def getDiscountInfo (p : PromoState) : DiscountInfo :=
  match p.type with
  | PromoType.free_month => ⟨"free_period", some 1, "One month free"⟩
  | PromoType.free_year => ⟨"free_period", some 12, "One year free"⟩
  | PromoType.lifetime => ⟨"lifetime", none, "Lifetime access"⟩
  | PromoType.discount_percent =>
      ⟨"percent", p.value, optNatToString p.value ++ "% discount"⟩
  | PromoType.discount_amount =>
      ⟨"amount", p.value, "$" ++ centsToFixed2 (p.value.getD 0) ++ " discount"⟩

/-- The Mongo query filter of `PromoCodeSchema.statics.findValidCode`:
code match, `isActive: true`, `validFrom ≤ now`, and `validUntil`
absent or `≥ now`. -/
def findValidCodeQuery (c : String) (now : Int) (p : PromoState) : Bool :=
  p.code == c && p.isActive && decide (p.validFrom ≤ now) &&
    p.validUntil.elim true (fun vu => decide (now ≤ vu))

/-- Source `PromoCodeSchema.statics.findValidCode(code, userId?)` over a
collection of promo-code documents: run the query, then drop the
result (returning `none`) when `isValid` rejects it — the rejection
reason is discarded. -/
def findValidCode (db : List PromoState) (c : String) (userId : Option Nat)
    (now : Int) : Option PromoState :=
  match db.find? (findValidCodeQuery c now) with
  | none => none
  | some p => if (isValid p userId now).valid then some p else none

/-! ### Calendar dates and promo-code benefits

The benefit switch of `POST /api/promo-codes/:code/use` mutates
`currentPeriodEnd` with JS `Date.setMonth` / `Date.setFullYear`
calendar arithmetic, so dates are triples (year, 0-based month,
day-of-month) with JS overflow normalization. -/

/-- A calendar date in JS `Date` conventions: `month` is 0-based. -/
structure JsDate where
  year : Int
  month : Nat
  day : Nat
deriving DecidableEq, Repr

/-- Gregorian leap-year rule. -/
def isLeapYear (y : Int) : Bool :=
  (y % 4 == 0 && y % 100 != 0) || y % 400 == 0

/-- Days in 0-based month `m` of year `y`. -/
def daysInMonth (y : Int) (m : Nat) : Nat :=
  if m = 1 then (if isLeapYear y then 29 else 28)
  else if m = 3 ∨ m = 5 ∨ m = 8 ∨ m = 10 then 30
  else 31

/-- JS `MakeDay` normalization: fold month overflow into the year,
then roll a day-of-month overflow into the following month (as JS
does for e.g. `Feb 29` of a non-leap year or `Jan 31` + 1 month). -/
def normalizeDate (y : Int) (m : Nat) (d : Nat) : JsDate :=
  let y1 := y + (m / 12 : Nat)
  let m1 := m % 12
  if d ≤ daysInMonth y1 m1 then ⟨y1, m1, d⟩
  else if m1 = 11 then ⟨y1 + 1, 0, d - daysInMonth y1 m1⟩
  else ⟨y1, m1 + 1, d - daysInMonth y1 m1⟩

/-- JS `date.setMonth(m)` (keeping the day-of-month, normalizing). -/
def jsSetMonth (dt : JsDate) (m : Nat) : JsDate :=
  normalizeDate dt.year m dt.day

/-- JS `date.setFullYear(y)` (keeping month and day, normalizing). -/
def jsSetFullYear (dt : JsDate) (y : Int) : JsDate :=
  normalizeDate y dt.month dt.day

/-- Calendar addition of `k` months, used to state the spec-level
"extend `currentPeriodEnd` by 1 month / 12 months". -/
def addMonths (dt : JsDate) (k : Nat) : JsDate :=
  normalizeDate dt.year (dt.month + k) dt.day

/-- The subscription sub-record fields touched by promo-code
redemption (`src/routes/promoCode.ts`). -/
structure RedeemUser where
  status : SubStatus
  currentPeriodEnd : Option JsDate
deriving DecidableEq, Repr

/-- The `switch (promoCode.type)` benefit block of
`POST /api/promo-codes/:code/use`: `free_month` does
`currentEnd.setMonth(currentEnd.getMonth() + 1)` (or from `now` when
unset), `free_year` does `setFullYear(+1)` likewise, `lifetime`
forces `status = 'active'` and `currentPeriodEnd = new
Date('2099-12-31')`; discount types change nothing. -/
def applyPromoBenefit (t : PromoType) (now : JsDate) (u : RedeemUser) : RedeemUser :=
  match t with
  | PromoType.free_month =>
      match u.currentPeriodEnd with
      | some e => { u with currentPeriodEnd := some (jsSetMonth e (e.month + 1)) }
      | none => { u with currentPeriodEnd := some (jsSetMonth now (now.month + 1)) }
  | PromoType.free_year =>
      match u.currentPeriodEnd with
      | some e => { u with currentPeriodEnd := some (jsSetFullYear e (e.year + 1)) }
      | none => { u with currentPeriodEnd := some (jsSetFullYear now (now.year + 1)) }
  | PromoType.lifetime =>
      { u with status := SubStatus.active, currentPeriodEnd := some ⟨2099, 11, 31⟩ }
  | _ => u

/-! ### Promo-code HTTP endpoints -/

/-- Outcome of a promo-code endpoint call. -/
inductive PromoResponse where
  | notFound (error : String)
  | badRequest (error : String)
  | ok (discount : DiscountInfo)
deriving DecidableEq, Repr

/-- Persist an updated promo-code document (`promoCode.save()`). -/
def saveCode (db : List PromoState) (p' : PromoState) : List PromoState :=
  db.map (fun q => if q.code == p'.code then p' else q)

/-- Endpoint `POST /api/promo-codes/apply` (public validation endpoint,
`src/routes/promoCode.ts`): `findValidCode(code)` without a user id,
404 with a generic error when it returns null, otherwise the
discount info.  No write is issued. -/
def applyEndpoint (db : List PromoState) (code : String) (now : Int) :
    PromoResponse × List PromoState :=
  match findValidCode db code none now with
  | none => (PromoResponse.notFound "Invalid or expired promo code", db)
  | some p => (PromoResponse.ok (getDiscountInfo p), db)

/-- Endpoint `POST /api/subscriptions/promo-code` (authenticated validation
endpoint, `src/routes/subscription.ts`): `findValidCode(code,
userId)`, 400 with a generic error on null, otherwise the discount
info.  No write is issued. -/
def subscriptionPromoCodeEndpoint (db : List PromoState)
    (users : List (Nat × RedeemUser)) (code : String) (userId : Nat) (now : Int) :
    PromoResponse × List PromoState × List (Nat × RedeemUser) :=
  match findValidCode db code (some userId) now with
  | none => (PromoResponse.notFound "Invalid or expired promo code", db, users)
  | some p => (PromoResponse.ok (getDiscountInfo p), db, users)

/-- Endpoint `POST /api/promo-codes/:code/use` (redemption endpoint):
`findValidCode(code, userId)`, 404 with the generic error on null;
otherwise `promoCode.use(userId)` (400 with the thrown reason on
failure), then the benefit switch on the user and both saves. -/
def useEndpoint (db : List PromoState) (code : String) (userId : Nat)
    (nowMs : Int) (nowDate : JsDate) (user : RedeemUser) :
    PromoResponse × List PromoState × RedeemUser :=
  match findValidCode db code (some userId) nowMs with
  | none => (PromoResponse.notFound "Invalid or expired promo code", db, user)
  | some p =>
      match use p userId nowMs with
      | Except.error m => (PromoResponse.badRequest m, db, user)
      | Except.ok p' =>
          let user' := applyPromoBenefit p.type nowDate user
          (PromoResponse.ok (getDiscountInfo p), saveCode db p', user')

/-! ### Stripe webhook event processor (`src/routes/subscription.ts`)

An inbound event is modelled after signature verification, with the
result of the `customers.retrieve` lookup embedded (the customer
lives at the payment provider).  Timestamps on the wire are epoch
seconds; the handlers store `new Date(x * 1000)` milliseconds. -/

/-- The subscription sub-record fields touched by webhook handlers
(millisecond-timestamp view of the `User` document). -/
structure Subscription where
  status : SubStatus
  currentPeriodStart : Option Int
  currentPeriodEnd : Option Int
  canceledAt : Option Int
deriving DecidableEq, Repr

/-- Result of `getStripe().customers.retrieve(...)`: possibly deleted,
with an optional `metadata.userId` mapping back to an account. -/
structure CustomerInfo where
  deleted : Bool
  metadataUserId : Option Nat
deriving DecidableEq, Repr

/-- The guard `customer && !customer.deleted && customer.metadata?.userId`
used by every webhook branch to resolve the owning account. -/
def resolveUser (c : Option CustomerInfo) : Option Nat :=
  match c with
  | some ci => if ci.deleted then none else ci.metadataUserId
  | none => none

/-- The external subscription snapshot carried by an event (status
string plus period bounds in epoch seconds). -/
structure SubSnapshot where
  status : String
  current_period_start : Int
  current_period_end : Int
deriving DecidableEq, Repr

/-- An audit record written via `Logger.logSubscription` /
`Logger.logPayment`. -/
structure LogRecord where
  logType : String
  action : String
  userId : Nat
  status : String
deriving DecidableEq, Repr

/-- A verified webhook event, one constructor per `case` of the
handler's `switch` (`hasSubscription` mirrors the
`if (invoice.subscription)` guard of the invoice branches). -/
inductive WebhookEvent where
  | subscriptionUpdated (snap : SubSnapshot) (customer : Option CustomerInfo)
  | subscriptionDeleted (customer : Option CustomerInfo)
  | invoicePaymentSucceeded (hasSubscription : Bool) (snap : SubSnapshot)
      (customer : Option CustomerInfo)
  | invoicePaymentFailed (hasSubscription : Bool) (customer : Option CustomerInfo)
  | unrecognized (eventType : String)
deriving DecidableEq, Repr

/-- What one webhook request produces: the accounts collection after
the handler, the audit records written, and whether the request was
acknowledged with `res.json({ received: true })`. -/
structure WebhookOutcome where
  db : List (Nat × Subscription)
  logs : List LogRecord
  received : Bool
deriving DecidableEq, Repr

/-- The external→internal status mapping of the
`customer.subscription.updated` handler:
`'trialing' → 'free_trial'` (the spec's `trial`), `'active' →
'active'`, `'canceled' → 'canceled'`, anything else → `'expired'`. -/
def mapExtStatus (s : String) : SubStatus :=
  if s = "trialing" then SubStatus.free_trial
  else if s = "active" then SubStatus.active
  else if s = "canceled" then SubStatus.canceled
  else SubStatus.expired

/-- The `User.findByIdAndUpdate` payload of the
`customer.subscription.updated` handler: overwrite status (mapped)
and both period bounds from the snapshot. -/
def subscriptionUpdatedApply (snap : SubSnapshot) (s : Subscription) : Subscription :=
  { s with
    status := mapExtStatus snap.status,
    currentPeriodStart := some (snap.current_period_start * 1000),
    currentPeriodEnd := some (snap.current_period_end * 1000) }

/-- Source `User.findByIdAndUpdate(uid, f)` over the accounts collection
(a no-op when no document has that id). -/
def findByIdAndUpdate (db : List (Nat × Subscription)) (uid : Nat)
    (f : Subscription → Subscription) : List (Nat × Subscription) :=
  db.map (fun e => if e.1 = uid then (e.1, f e.2) else e)

/-- The webhook `switch` of `POST /api/subscriptions/webhook`.  Every
path falls through to `res.json({ received: true })`; branches whose
customer guard fails mutate nothing and log nothing. -/
def processWebhookEvent (e : WebhookEvent) (db : List (Nat × Subscription))
    (now : Int) : WebhookOutcome :=
  match e with
  | WebhookEvent.subscriptionUpdated snap cust =>
      match resolveUser cust with
      | some uid =>
          ⟨findByIdAndUpdate db uid (subscriptionUpdatedApply snap),
           [⟨"subscription", "subscription_updated", uid, "success"⟩], true⟩
      | none => ⟨db, [], true⟩
  | WebhookEvent.subscriptionDeleted cust =>
      match resolveUser cust with
      | some uid =>
          ⟨findByIdAndUpdate db uid
             (fun s => { s with status := SubStatus.expired, canceledAt := some now }),
           [⟨"subscription", "subscription_deleted", uid, "success"⟩], true⟩
      | none => ⟨db, [], true⟩
  | WebhookEvent.invoicePaymentSucceeded hasSub snap cust =>
      if hasSub then
        match resolveUser cust with
        | some uid =>
            ⟨findByIdAndUpdate db uid
               (fun s => { s with
                 status := SubStatus.active,
                 currentPeriodStart := some (snap.current_period_start * 1000),
                 currentPeriodEnd := some (snap.current_period_end * 1000) }),
             [⟨"payment", "payment_succeeded", uid, "success"⟩], true⟩
        | none => ⟨db, [], true⟩
      else ⟨db, [], true⟩
  | WebhookEvent.invoicePaymentFailed hasSub cust =>
      if hasSub then
        match resolveUser cust with
        | some uid => ⟨db, [⟨"payment", "payment_failed", uid, "failure"⟩], true⟩
        | none => ⟨db, [], true⟩
      else ⟨db, [], true⟩
  | WebhookEvent.unrecognized _ => ⟨db, [], true⟩

/-! ### Reminder scheduler (`src/services/notificationService.ts`) -/

/-- Milliseconds per day, the divisor in the trial-expiry
`daysLeft` computation. -/
def msPerDay : Int := 86400000

/-- The `User` document fields consulted by the scheduler jobs. -/
structure NotifUser where
  id : Nat
  isActive : Bool
  status : SubStatus
  trialEndsAt : Option Int
  fcmTokens : List String
  notificationsEnabled : Bool
  reminderTimes : List String
deriving DecidableEq, Repr

/-- A progress record as consulted by the reminder job (owner and
`date` timestamp). -/
structure ProgressRec where
  userId : Nat
  date : Int
deriving DecidableEq, Repr

/-- One multicast push dispatch (`sendMulticastNotification`). -/
structure Multicast where
  tokens : List String
  title : String
  body : String
deriving DecidableEq, Repr

/-- The `User.find` filter of `sendProgressReminders(hour)`:
`isActive`, notifications enabled, `` `${hour}:00` `` in
`settings.reminderTimes`, and a non-empty `fcmTokens`. -/
def progressCandidate (hour : Nat) (u : NotifUser) : Bool :=
  u.isActive && u.notificationsEnabled &&
    u.reminderTimes.contains (toString hour ++ ":00") && !u.fcmTokens.isEmpty

/-- The per-user dedup probe: `Progress.findOne({ userId, date:
{ $gte: today } })` where `today` is the start of the current
calendar day. -/
def hasProgressSince (progress : List ProgressRec) (uid : Nat) (today : Int) : Bool :=
  progress.any (fun r => r.userId == uid && decide (today ≤ r.date))

/-- Source `getReminderTitle(hour)`. -/
def getReminderTitle (hour : Nat) : String :=
  if hour = 12 then "🌟 Midday Progress Check!"
  else if hour = 18 then "💪 Evening Fitness Update!"
  else if hour = 22 then "📸 Quick Progress Snap!"
  else if hour = 23 then "⏰ Last Chance Today!"
  else "💪 Track Your Progress!"

/-- Source `getReminderBody(hour)`. -/
def getReminderBody (hour : Nat) : String :=
  if hour = 12 then "Take a moment to capture your fitness journey today! 📸"
  else if hour = 18 then "How did your workout go? Log your progress now! 🏋️"
  else if hour = 22 then "Don\x27t forget to track today\x27s progress! Quick and easy! ✨"
  else if hour = 23 then "Final reminder: Track your progress before midnight! 🌙"
  else "Time to track your fitness progress! 💪"

/-- The accounts kept by `sendProgressReminders(hour)`: the query's
candidates minus those with a progress record dated `today` or
later. -/
def usersNeedingReminders (hour : Nat) (today : Int) (users : List NotifUser)
    (progress : List ProgressRec) : List NotifUser :=
  (users.filter (progressCandidate hour)).filter
    (fun u => !hasProgressSince progress u.id today)

/-- Source `sendProgressReminders(hour)`: pool the remaining users' tokens
and, when any exist, issue a single multicast with the hour's canned
title/body. -/
def sendProgressReminders (hour : Nat) (today : Int) (users : List NotifUser)
    (progress : List ProgressRec) : Option Multicast :=
  let allTokens := (usersNeedingReminders hour today users progress).flatMap
    (fun u => u.fcmTokens)
  if allTokens.isEmpty then none
  else some ⟨allTokens, getReminderTitle hour, getReminderBody hour⟩

/-! ### Trial-expiry check -/

/-- Ceiling integer division (`Math.ceil(a / b)` for `b > 0`). -/
def ceilDiv (a b : Int) : Int := -((-a).fdiv b)

/-- JS `Math.ceil((trialEnd - now) / (1000*60*60*24))`. -/
def daysLeftOf (now trialEnd : Int) : Int := ceilDiv (trialEnd - now) msPerDay

/-- The `User.find` filter of `checkAndSendTrialExpiryReminders`:
`isActive`, status `'free_trial'`, `trialEndsAt` within
`[now, now + 2 days]`, non-empty `fcmTokens`. -/
def trialExpirySelect (now : Int) (u : NotifUser) : Bool :=
  u.isActive && u.status == SubStatus.free_trial &&
    (u.trialEndsAt.elim false
      (fun t => decide (now ≤ t) && decide (t ≤ now + 2 * msPerDay))) &&
    !u.fcmTokens.isEmpty

/-- One individualized trial-expiry push. -/
structure TrialReminder where
  userId : Nat
  tokens : List String
  daysLeft : Int
  title : String
  body : String
deriving DecidableEq, Repr

/-- Source `sendTrialExpiryReminder(userId, fcmTokens, daysLeft)`: no-op on
an empty token list; singular copy exactly when `daysLeft === 1`. -/
def sendTrialExpiryReminder (uid : Nat) (tokens : List String) (d : Int) :
    Option TrialReminder :=
  if tokens.isEmpty then none
  else
    some ⟨uid, tokens, d,
      if d = 1 then "⏰ Trial expires tomorrow!"
        else "⏰ " ++ toString d ++ " days left in trial!",
      if d = 1 then "Don\x27t lose your progress! Upgrade to premium now."
        else "Continue your fitness journey with premium features. " ++
          toString d ++ " days remaining."⟩

/-- Source `checkAndSendTrialExpiryReminders()`: select, compute `daysLeft`,
and send only when `0 < daysLeft ≤ 2`. -/
def checkAndSendTrialExpiryReminders (now : Int) (users : List NotifUser) :
    List TrialReminder :=
  (users.filter (trialExpirySelect now)).filterMap (fun u =>
    match u.trialEndsAt with
    | some t =>
        let d := daysLeftOf now t
        if 0 < d ∧ d ≤ 2 then sendTrialExpiryReminder u.id u.fcmTokens d else none
    | none => none)

/-! ## Supporting lemmas -/

/-- Overwriting the same status/period snapshot twice is the same as
overwriting it once. -/
theorem subscriptionUpdatedApply_idem (snap : SubSnapshot) (s : Subscription) :
    subscriptionUpdatedApply snap (subscriptionUpdatedApply snap s)
      = subscriptionUpdatedApply snap s := rfl

/-- An idempotent per-document update makes `findByIdAndUpdate`
idempotent. -/
theorem findByIdAndUpdate_idem (db : List (Nat × Subscription)) (uid : Nat)
    (f : Subscription → Subscription) (hf : ∀ s, f (f s) = f s) :
    findByIdAndUpdate (findByIdAndUpdate db uid f) uid f
      = findByIdAndUpdate db uid f := by
  induction db with
  | nil => rfl
  | cons e rest ih =>
      simp only [findByIdAndUpdate, List.map_cons] at *
      by_cases h : e.1 = uid
      · simp [h, hf, ih]
      · simp [h, ih]

/-- A code already redeemed by `uid` never validates for `uid` again. -/
theorem isValid_false_of_mem_usedBy (p : PromoState) (uid : Nat) (now : Int)
    (h : uid ∈ p.usedBy) : (isValid p (some uid) now).valid = false := by
  have hc : p.usedBy.contains uid = true := by simpa using h
  simp [isValid, hc, apply_ite (ValidationResult.valid), ite_self]
  exact fun _ _ _ _ => h

/-- A code whose usage limit is reached never validates. -/
theorem isValid_false_of_limit (p : PromoState) (userId : Option Nat) (now : Int)
    (l : Nat) (hl : p.usageLimit = some l) (hc : l ≤ p.usedCount) :
    (isValid p userId now).valid = false := by
  simp [isValid, hl, hc, apply_ite (ValidationResult.valid), ite_self]

/-- What a successful validation guarantees: headroom under the usage
limit and absence from `usedBy`. -/
theorem isValid_true_facts (p : PromoState) (uid : Nat) (now : Int)
    (h : (isValid p (some uid) now).valid = true) :
    (∀ l, p.usageLimit = some l → p.usedCount < l) ∧ uid ∉ p.usedBy := by
  constructor
  · intro l hl
    by_contra hlt
    push_neg at hlt
    rw [isValid_false_of_limit p (some uid) now l hl hlt] at h
    exact absurd h (by simp)
  · intro hmem
    rw [isValid_false_of_mem_usedBy p uid now hmem] at h
    exact absurd h (by simp)

/-- One atomic (non-interleaved) `use` call preserves the ledger
invariant. -/
theorem redeem_preserves_invariant (p : PromoState) (uid : Nat) (now : Int)
    (h : promoInvariant p) : promoInvariant (redeem p uid now) := by
  by_cases hv : (isValid p (some uid) now).valid
  · obtain ⟨hlim, hmem⟩ := isValid_true_facts p uid now hv
    have hred : redeem p uid now = commitUse p uid := by
      simp [redeem, use, hv]
    rw [hred]
    constructor
    · intro l hl
      have := hlim l (by simpa [commitUse] using hl)
      simp [commitUse]
      omega
    · simp [commitUse, List.nodup_append]
      exact ⟨h.2, by simpa [List.disjoint_singleton] using hmem⟩
  · have hred : redeem p uid now = p := by
      simp [redeem, use, hv]
    rw [hred]; exact h

/-! ## Claims -/

/-- C3: applying the same `customer.subscription.updated` event twice
in sequence leaves exactly the account state that applying it once
produces — the handler overwrites status and both period bounds
wholesale from the event snapshot, so redelivery is idempotent. -/
theorem subscription_updated_idempotent (snap : SubSnapshot)
    (cust : Option CustomerInfo) (db : List (Nat × Subscription)) (now now' : Int) :
    (processWebhookEvent (WebhookEvent.subscriptionUpdated snap cust)
        (processWebhookEvent (WebhookEvent.subscriptionUpdated snap cust) db now).db
        now').db
      = (processWebhookEvent (WebhookEvent.subscriptionUpdated snap cust) db now).db := by
  cases h : resolveUser cust with
  | none => simp [processWebhookEvent, h]
  | some uid =>
      simp [processWebhookEvent, h,
        findByIdAndUpdate_idem db uid (subscriptionUpdatedApply snap)
          (subscriptionUpdatedApply_idem snap)]

/-- C8: processing an `invoice.payment_failed` event never mutates any
account — the accounts collection is returned unchanged on every path
of that branch, the request is acknowledged, and at most an
observability log record is produced. -/
theorem invoice_payment_failed_frame (hasSub : Bool) (cust : Option CustomerInfo)
    (db : List (Nat × Subscription)) (now : Int) :
    (processWebhookEvent (WebhookEvent.invoicePaymentFailed hasSub cust) db now).db = db
    ∧ (processWebhookEvent (WebhookEvent.invoicePaymentFailed hasSub cust) db now).received
        = true
    ∧ ((processWebhookEvent (WebhookEvent.invoicePaymentFailed hasSub cust) db now).logs = []
       ∨ ∃ uid,
          (processWebhookEvent (WebhookEvent.invoicePaymentFailed hasSub cust) db now).logs
            = [⟨"payment", "payment_failed", uid, "failure"⟩]) := by
  cases hasSub with
  | false => simp [processWebhookEvent]
  | true =>
      cases h : resolveUser cust with
      | none => simp [processWebhookEvent, h]
      | some uid => simp [processWebhookEvent, h]

/-- C10: the two validation-only promo-code endpoints
(`POST /api/promo-codes/apply` and `POST /api/subscriptions/promo-code`)
return the promo-code collection and the accounts collection exactly
as given, whether the code validates or not — only the redemption
endpoint writes. -/
theorem validation_endpoints_pure (db : List PromoState)
    (users : List (Nat × RedeemUser)) (code : String) (userId : Nat) (now : Int) :
    (applyEndpoint db code now).2 = db
    ∧ (subscriptionPromoCodeEndpoint db users code userId now).2.1 = db
    ∧ (subscriptionPromoCodeEndpoint db users code userId now).2.2 = users := by
  refine ⟨?_, ?_, ?_⟩ <;>
    · simp only [applyEndpoint, subscriptionPromoCodeEndpoint]
      cases findValidCode db code none now <;>
        cases findValidCode db code (some userId) now <;> rfl

/-- C9 counterexample: a signature-valid `customer.subscription.updated`
event whose customer has no `metadata.userId` mapping is acknowledged
(`received = true`) but its log list is empty — no anomaly record of
any kind is written, refuting "logs the unresolved reference as an
anomaly". -/
theorem unresolved_customer_not_logged :
    (processWebhookEvent
        (WebhookEvent.subscriptionUpdated ⟨"active", 1, 2⟩ (some ⟨false, none⟩))
        [(1, ⟨SubStatus.active, none, none, none⟩)] 0).received = true
    ∧ (processWebhookEvent
        (WebhookEvent.subscriptionUpdated ⟨"active", 1, 2⟩ (some ⟨false, none⟩))
        [(1, ⟨SubStatus.active, none, none, none⟩)] 0).logs = [] := by
  decide

/-- C9 (amended): for every signature-valid event whose customer
reference has no mapped account, processing acknowledges the event as
a success and performs no mutation, but writes no log at all — the
unresolved reference is silently dropped rather than logged as an
anomaly. -/
theorem unresolved_customer_acknowledged_silently (snap : SubSnapshot)
    (cust : Option CustomerInfo) (db : List (Nat × Subscription)) (now : Int)
    (h : resolveUser cust = none) :
    processWebhookEvent (WebhookEvent.subscriptionUpdated snap cust) db now
        = ⟨db, [], true⟩
    ∧ processWebhookEvent (WebhookEvent.subscriptionDeleted cust) db now
        = ⟨db, [], true⟩
    ∧ processWebhookEvent (WebhookEvent.invoicePaymentSucceeded true snap cust) db now
        = ⟨db, [], true⟩
    ∧ processWebhookEvent (WebhookEvent.invoicePaymentFailed true cust) db now
        = ⟨db, [], true⟩ := by
  simp [processWebhookEvent, h]

/-- C9 witness: the amended theorem applied at a deleted customer. -/
theorem unresolved_customer_acknowledged_silently_witness :
    resolveUser (some ⟨true, some 3⟩) = none
    ∧ (processWebhookEvent
          (WebhookEvent.subscriptionUpdated ⟨"active", 1, 2⟩ (some ⟨true, some 3⟩))
          [] 0 = ⟨[], [], true⟩
       ∧ processWebhookEvent (WebhookEvent.subscriptionDeleted (some ⟨true, some 3⟩)) [] 0
          = ⟨[], [], true⟩
       ∧ processWebhookEvent
          (WebhookEvent.invoicePaymentSucceeded true ⟨"active", 1, 2⟩ (some ⟨true, some 3⟩))
          [] 0 = ⟨[], [], true⟩
       ∧ processWebhookEvent (WebhookEvent.invoicePaymentFailed true (some ⟨true, some 3⟩)) [] 0
          = ⟨[], [], true⟩) :=
  ⟨by decide,
   unresolved_customer_acknowledged_silently ⟨"active", 1, 2⟩ (some ⟨true, some 3⟩) [] 0
     (by decide)⟩

/-- C4: for a `customer.subscription.updated` event whose customer
resolves to an account present in the store, the handler maps the
external status by `trialing → free_trial` (the spec's internal
`trial` status), `active → active`, `canceled → canceled`, anything
else → `expired`, and overwrites `currentPeriodStart` /
`currentPeriodEnd` verbatim from the event snapshot, regardless of
the account's prior values. -/
theorem subscription_updated_status_mapping (snap : SubSnapshot)
    (cust : Option CustomerInfo) (uid : Nat) (db : List (Nat × Subscription))
    (s0 : Subscription) (now : Int)
    (h1 : resolveUser cust = some uid) (h2 : (uid, s0) ∈ db) :
    (mapExtStatus "trialing" = SubStatus.free_trial
     ∧ mapExtStatus "active" = SubStatus.active
     ∧ mapExtStatus "canceled" = SubStatus.canceled
     ∧ ∀ str, str ≠ "trialing" → str ≠ "active" → str ≠ "canceled" →
         mapExtStatus str = SubStatus.expired)
    ∧ (uid, subscriptionUpdatedApply snap s0) ∈
        (processWebhookEvent (WebhookEvent.subscriptionUpdated snap cust) db now).db
    ∧ (subscriptionUpdatedApply snap s0).status = mapExtStatus snap.status
    ∧ (subscriptionUpdatedApply snap s0).currentPeriodStart
        = some (snap.current_period_start * 1000)
    ∧ (subscriptionUpdatedApply snap s0).currentPeriodEnd
        = some (snap.current_period_end * 1000) := by
  refine ⟨⟨rfl, rfl, rfl, ?_⟩, ?_, rfl, rfl, rfl⟩
  · intro str hs1 hs2 hs3
    simp [mapExtStatus, hs1, hs2, hs3]
  · simp only [processWebhookEvent, h1, findByIdAndUpdate]
    have : ((uid : Nat), subscriptionUpdatedApply snap s0)
        = (fun e : Nat × Subscription =>
            if e.1 = uid then (e.1, subscriptionUpdatedApply snap e.2) else e) (uid, s0) := by
      simp
    rw [this]
    exact List.mem_map_of_mem _ h2

/-- C4 witness: the theorem applied at a resolvable customer for a
`trialing` snapshot over a one-account store. -/
theorem subscription_updated_status_mapping_witness :
    resolveUser (some ⟨false, some 2⟩) = some 2
    ∧ ((2 : Nat), (⟨SubStatus.expired, none, none, none⟩ : Subscription))
        ∈ [((2 : Nat), (⟨SubStatus.expired, none, none, none⟩ : Subscription))]
    ∧ ((mapExtStatus "trialing" = SubStatus.free_trial
        ∧ mapExtStatus "active" = SubStatus.active
        ∧ mapExtStatus "canceled" = SubStatus.canceled
        ∧ ∀ str, str ≠ "trialing" → str ≠ "active" → str ≠ "canceled" →
            mapExtStatus str = SubStatus.expired)
       ∧ (2, subscriptionUpdatedApply ⟨"trialing", 10, 20⟩
             ⟨SubStatus.expired, none, none, none⟩) ∈
           (processWebhookEvent
             (WebhookEvent.subscriptionUpdated ⟨"trialing", 10, 20⟩ (some ⟨false, some 2⟩))
             [(2, ⟨SubStatus.expired, none, none, none⟩)] 0).db
       ∧ (subscriptionUpdatedApply ⟨"trialing", 10, 20⟩
             ⟨SubStatus.expired, none, none, none⟩).status = mapExtStatus "trialing"
       ∧ (subscriptionUpdatedApply ⟨"trialing", 10, 20⟩
             ⟨SubStatus.expired, none, none, none⟩).currentPeriodStart = some (10 * 1000)
       ∧ (subscriptionUpdatedApply ⟨"trialing", 10, 20⟩
             ⟨SubStatus.expired, none, none, none⟩).currentPeriodEnd = some (20 * 1000)) :=
  ⟨by decide, by simp,
   subscription_updated_status_mapping ⟨"trialing", 10, 20⟩ (some ⟨false, some 2⟩) 2
     [(2, ⟨SubStatus.expired, none, none, none⟩)] ⟨SubStatus.expired, none, none, none⟩ 0
     (by decide) (by simp)⟩

/-- C1 counterexample: a code with `usageLimit = 1`, redeemed
concurrently by accounts 7 and 8 under the interleaving "both
validate, then both commit" (schedule `[0, 1, 0, 1]`), ends with
`usedCount = 2 > 1` — the source's validate-then-mutate sequence is
two separate steps, not a single atomic conditional update. -/
theorem interleaved_use_exceeds_usage_limit :
    (⟨"GOLD", PromoType.lifetime, none, true, some 1, 0, [], 0, none⟩ :
        PromoState).usageLimit = some 1
    ∧ (runSchedule [7, 8] 100
        ⟨"GOLD", PromoType.lifetime, none, true, some 1, 0, [], 0, none⟩
        [0, 1, 0, 1]).1.usedCount = 2
    ∧ ¬ promoInvariant (runSchedule [7, 8] 100
        ⟨"GOLD", PromoType.lifetime, none, true, some 1, 0, [], 0, none⟩
        [0, 1, 0, 1]).1 := by
  refine ⟨by decide, by decide, fun hinv => ?_⟩
  have h1 := hinv.1 1 (by decide)
  have h2 : (runSchedule [7, 8] 100
      ⟨"GOLD", PromoType.lifetime, none, true, some 1, 0, [], 0, none⟩
      [0, 1, 0, 1]).1.usedCount = 2 := by decide
  omega

/-- C1 (amended): when `use` calls execute sequentially (each call's
validate and mutate adjacent), any number of redemption attempts
preserves `usedCount ≤ usageLimit` and the distinctness of `usedBy`;
under interleaved concurrent calls the two-step validate-then-save of
the source can exceed the limit. -/
theorem sequential_redeem_preserves_usage_invariant (p : PromoState)
    (uids : List Nat) (now : Int) (h : promoInvariant p) :
    promoInvariant (uids.foldl (fun q uid => redeem q uid now) p) := by
  induction uids generalizing p with
  | nil => exact h
  | cons a rest ih =>
      simpa [List.foldl] using ih (redeem p a now) (redeem_preserves_invariant p a now h)

/-- C1 witness: the amended theorem applied to a fresh
single-use code redeemed by accounts 7 then 8. -/
theorem sequential_redeem_preserves_usage_invariant_witness :
    promoInvariant (⟨"GOLD", PromoType.lifetime, none, true, some 1, 0, [], 0, none⟩ :
        PromoState)
    ∧ promoInvariant ([7, 8].foldl (fun q uid => redeem q uid 100)
        ⟨"GOLD", PromoType.lifetime, none, true, some 1, 0, [], 0, none⟩) := by
  have hinv : promoInvariant (⟨"GOLD", PromoType.lifetime, none, true, some 1, 0, [], 0,
      none⟩ : PromoState) := by
    constructor
    · intro l hl
      injection hl with h2
      subst h2
      decide
    · exact List.nodup_nil
  exact ⟨hinv, sequential_redeem_preserves_usage_invariant _ [7, 8] 100 hinv⟩

/-- C2 counterexample: account 5 has already redeemed `"SAVE"` and nine
uses of headroom remain; the second redemption attempt does fail, and
`isValid` computes the specific already-used reason, but the endpoint
answers with the generic message `"Invalid or expired promo code"` —
the specific reason never reaches the requester. -/
theorem already_used_generic_response :
    (⟨"SAVE", PromoType.free_month, none, true, some 10, 1, [5], 0, none⟩ :
        PromoState).usedCount = 1
    ∧ (isValid ⟨"SAVE", PromoType.free_month, none, true, some 10, 1, [5], 0, none⟩
        (some 5) 100).reason = some "You have already used this promo code"
    ∧ (useEndpoint [⟨"SAVE", PromoType.free_month, none, true, some 10, 1, [5], 0, none⟩]
        "SAVE" 5 100 ⟨2025, 0, 10⟩ ⟨SubStatus.free_trial, none⟩).1
        = PromoResponse.notFound "Invalid or expired promo code"
    ∧ "Invalid or expired promo code" ≠ "You have already used this promo code" := by
  decide

/-- C2 (amended): once an account is in a code's `usedBy`, every later
redemption attempt by that account fails regardless of remaining
usage headroom; `isValid` computes the specific reason "You have
already used this promo code", but `findValidCode` discards it, so
the redemption endpoint responds with the generic
"Invalid or expired promo code" and mutates nothing. -/
theorem already_used_always_fails_generic (db : List PromoState) (code : String)
    (userId : Nat) (nowMs : Int) (nowDate : JsDate) (user : RedeemUser)
    (p : PromoState)
    (hall : ∀ q ∈ db, q.code = code → userId ∈ q.usedBy)
    (hmem : userId ∈ p.usedBy)
    (hact : p.isActive = true)
    (hfrom : p.validFrom ≤ nowMs)
    (huntil : ∀ vu, p.validUntil = some vu → nowMs ≤ vu)
    (hlim : ∀ l, p.usageLimit = some l → p.usedCount < l) :
    (useEndpoint db code userId nowMs nowDate user).1
        = PromoResponse.notFound "Invalid or expired promo code"
    ∧ (useEndpoint db code userId nowMs nowDate user).2.1 = db
    ∧ (useEndpoint db code userId nowMs nowDate user).2.2 = user
    ∧ isValid p (some userId) nowMs
        = ⟨false, some "You have already used this promo code"⟩ := by
  have hnone : findValidCode db code (some userId) nowMs = none := by
    unfold findValidCode
    cases hf : db.find? (findValidCodeQuery code nowMs) with
    | none => rfl
    | some q =>
        have hq := List.find?_some hf
        have hqmem := List.mem_of_find?_eq_some hf
        simp only [findValidCodeQuery, Bool.and_eq_true, beq_iff_eq] at hq
        have hqc : q.code = code := hq.1.1.1
        have := isValid_false_of_mem_usedBy q userId nowMs (hall q hqmem hqc)
        simp [this]
  refine ⟨?_, ?_, ?_, ?_⟩
  · simp [useEndpoint, hnone]
  · simp [useEndpoint, hnone]
  · simp [useEndpoint, hnone]
  · have hc : p.usedBy.contains userId = true := by simpa using hmem
    have h2 : ¬ nowMs < p.validFrom := not_lt.mpr hfrom
    have h3 : p.validUntil.elim false (fun vu => decide (vu < nowMs)) = false := by
      cases hvu : p.validUntil with
      | none => rfl
      | some vu => simpa using not_lt.mpr (huntil vu hvu)
    have h4 : p.usageLimit.elim false (fun l => decide (l ≤ p.usedCount)) = false := by
      cases hul : p.usageLimit with
      | none => rfl
      | some l => simpa using hlim l hul
    simp [isValid, hact, h2, h3, h4, hc]
    exact hmem

/-- C2 witness: the amended theorem applied to the `"SAVE"` code with
nine uses of headroom, already redeemed by account 5. -/
theorem already_used_always_fails_generic_witness :
    ((5 : Nat) ∈ (⟨"SAVE", PromoType.free_month, none, true, some 10, 1, [5], 0, none⟩ :
        PromoState).usedBy)
    ∧ ((useEndpoint [⟨"SAVE", PromoType.free_month, none, true, some 10, 1, [5], 0, none⟩]
          "SAVE" 5 100 ⟨2025, 0, 10⟩ ⟨SubStatus.free_trial, none⟩).1
          = PromoResponse.notFound "Invalid or expired promo code"
       ∧ (useEndpoint [⟨"SAVE", PromoType.free_month, none, true, some 10, 1, [5], 0, none⟩]
          "SAVE" 5 100 ⟨2025, 0, 10⟩ ⟨SubStatus.free_trial, none⟩).2.1
          = [⟨"SAVE", PromoType.free_month, none, true, some 10, 1, [5], 0, none⟩]
       ∧ (useEndpoint [⟨"SAVE", PromoType.free_month, none, true, some 10, 1, [5], 0, none⟩]
          "SAVE" 5 100 ⟨2025, 0, 10⟩ ⟨SubStatus.free_trial, none⟩).2.2
          = ⟨SubStatus.free_trial, none⟩
       ∧ isValid ⟨"SAVE", PromoType.free_month, none, true, some 10, 1, [5], 0, none⟩
          (some 5) 100 = ⟨false, some "You have already used this promo code"⟩) :=
  ⟨by decide,
   already_used_always_fails_generic
     [⟨"SAVE", PromoType.free_month, none, true, some 10, 1, [5], 0, none⟩]
     "SAVE" 5 100 ⟨2025, 0, 10⟩ ⟨SubStatus.free_trial, none⟩
     ⟨"SAVE", PromoType.free_month, none, true, some 10, 1, [5], 0, none⟩
     (by decide) (by decide) (by decide) (by decide)
     (fun vu h => Option.noConfusion h)
     (fun l hl => by injection hl with h2; subst h2; decide)⟩

/-- JS `setMonth(getMonth() + 1)` is exactly a one-month calendar
extension. -/
theorem jsSetMonth_succ_addMonths (dt : JsDate) :
    jsSetMonth dt (dt.month + 1) = addMonths dt 1 := rfl

/-- JS `setFullYear(getFullYear() + 1)` is exactly a twelve-month
calendar extension (for a well-formed 0-based month). -/
theorem jsSetFullYear_succ_addMonths (dt : JsDate) (h : dt.month < 12) :
    jsSetFullYear dt (dt.year + 1) = addMonths dt 12 := by
  have h1 : (dt.month + 12) / 12 = 1 := by omega
  have h2 : (dt.month + 12) % 12 = dt.month := by omega
  have h3 : dt.month / 12 = 0 := by omega
  have h4 : dt.month % 12 = dt.month := by omega
  simp [jsSetFullYear, addMonths, normalizeDate, h1, h2, h3, h4]

/-- C5: redeeming a `free_month` code extends `currentPeriodEnd` by one
calendar month from its current value (or from now if unset);
`free_year` extends it by twelve months likewise (the source's
`setFullYear(+1)` equals a 12-month extension); `lifetime` forces
`status = active` and sets `currentPeriodEnd` to the far-future
sentinel 2099-12-31; and the spec scenario 2025-01-10 → 2025-02-10
holds. -/
theorem promo_benefit_effects (u : RedeemUser) (now : JsDate) (e : JsDate)
    (he : u.currentPeriodEnd = some e) (hm : e.month < 12) (hn : now.month < 12) :
    (applyPromoBenefit PromoType.free_month now u).currentPeriodEnd
        = some (addMonths e 1)
    ∧ (applyPromoBenefit PromoType.free_year now u).currentPeriodEnd
        = some (addMonths e 12)
    ∧ (∀ v : RedeemUser, v.currentPeriodEnd = none →
        (applyPromoBenefit PromoType.free_month now v).currentPeriodEnd
            = some (addMonths now 1)
        ∧ (applyPromoBenefit PromoType.free_year now v).currentPeriodEnd
            = some (addMonths now 12))
    ∧ (applyPromoBenefit PromoType.lifetime now u).status = SubStatus.active
    ∧ (applyPromoBenefit PromoType.lifetime now u).currentPeriodEnd
        = some ⟨2099, 11, 31⟩
    ∧ (applyPromoBenefit PromoType.free_month now
        ⟨SubStatus.free_trial, some ⟨2025, 0, 10⟩⟩).currentPeriodEnd
        = some ⟨2025, 1, 10⟩ := by
  refine ⟨?_, ?_, ?_, ?_, ?_, ?_⟩
  · simp [applyPromoBenefit, he, jsSetMonth_succ_addMonths]
  · simp [applyPromoBenefit, he, jsSetFullYear_succ_addMonths e hm]
  · intro v hv
    exact ⟨by simp [applyPromoBenefit, hv, jsSetMonth_succ_addMonths],
           by simp [applyPromoBenefit, hv, jsSetFullYear_succ_addMonths now hn]⟩
  · cases hu : u.currentPeriodEnd <;> simp [applyPromoBenefit]
  · cases hu : u.currentPeriodEnd <;> simp [applyPromoBenefit]
  · rfl

/-- C5 witness: the theorem applied at `currentPeriodEnd = 2025-01-10`
(spec scenario) with `now = 2025-06-15`. -/
theorem promo_benefit_effects_witness :
    ((⟨SubStatus.free_trial, some ⟨2025, 0, 10⟩⟩ : RedeemUser).currentPeriodEnd
        = some ⟨2025, 0, 10⟩ ∧ (0 : Nat) < 12 ∧ (5 : Nat) < 12)
    ∧ ((applyPromoBenefit PromoType.free_month ⟨2025, 5, 15⟩
          ⟨SubStatus.free_trial, some ⟨2025, 0, 10⟩⟩).currentPeriodEnd
          = some (addMonths ⟨2025, 0, 10⟩ 1)
       ∧ (applyPromoBenefit PromoType.free_year ⟨2025, 5, 15⟩
          ⟨SubStatus.free_trial, some ⟨2025, 0, 10⟩⟩).currentPeriodEnd
          = some (addMonths ⟨2025, 0, 10⟩ 12)
       ∧ (∀ v : RedeemUser, v.currentPeriodEnd = none →
          (applyPromoBenefit PromoType.free_month ⟨2025, 5, 15⟩ v).currentPeriodEnd
              = some (addMonths ⟨2025, 5, 15⟩ 1)
          ∧ (applyPromoBenefit PromoType.free_year ⟨2025, 5, 15⟩ v).currentPeriodEnd
              = some (addMonths ⟨2025, 5, 15⟩ 12))
       ∧ (applyPromoBenefit PromoType.lifetime ⟨2025, 5, 15⟩
          ⟨SubStatus.free_trial, some ⟨2025, 0, 10⟩⟩).status = SubStatus.active
       ∧ (applyPromoBenefit PromoType.lifetime ⟨2025, 5, 15⟩
          ⟨SubStatus.free_trial, some ⟨2025, 0, 10⟩⟩).currentPeriodEnd
          = some ⟨2099, 11, 31⟩
       ∧ (applyPromoBenefit PromoType.free_month ⟨2025, 5, 15⟩
          ⟨SubStatus.free_trial, some ⟨2025, 0, 10⟩⟩).currentPeriodEnd
          = some ⟨2025, 1, 10⟩) :=
  ⟨⟨rfl, by decide, by decide⟩,
   promo_benefit_effects ⟨SubStatus.free_trial, some ⟨2025, 0, 10⟩⟩ ⟨2025, 5, 15⟩
     ⟨2025, 0, 10⟩ rfl (by decide) (by decide)⟩

/-- C6 counterexample: a soft-deactivated account (`isActive = false`)
with `status = free_trial`, a device token, and `trialEndsAt` 36 hours
ahead satisfies every condition of the claim's selection
characterization yet is not selected — the query also filters on
`isActive: true`, which the claim omits. -/
theorem inactive_trial_account_not_selected :
    trialExpirySelect 0 ⟨1, false, SubStatus.free_trial, some 129600000, ["tok"], true, []⟩
        = false
    ∧ (⟨1, false, SubStatus.free_trial, some 129600000, ["tok"], true, []⟩ :
        NotifUser).status = SubStatus.free_trial
    ∧ (⟨1, false, SubStatus.free_trial, some 129600000, ["tok"], true, []⟩ :
        NotifUser).fcmTokens ≠ []
    ∧ ((⟨1, false, SubStatus.free_trial, some 129600000, ["tok"], true, []⟩ :
        NotifUser).trialEndsAt.elim false
          (fun t => decide ((0 : Int) ≤ t) && decide (t ≤ 0 + 2 * msPerDay))) = true := by
  decide

/-- C6 (amended): the trial-expiry check selects exactly the accounts
that are active (not soft-deactivated), have `status = free_trial`
(the spec's `trial`), at least one device token, and `trialEndsAt`
within `[now, now + 2 days]`; `daysLeft` is the ceiling of the
remaining time in days (36 h → 2, 20 h → 1); and every reminder sent
has `daysLeft` 1 or 2, with singular title wording exactly when
`daysLeft = 1`. -/
theorem trial_expiry_selection_and_days_left (now : Int) (u : NotifUser)
    (users : List NotifUser) (r : TrialReminder)
    (hr : r ∈ checkAndSendTrialExpiryReminders now users) :
    (trialExpirySelect now u = true ↔
      (u.isActive = true ∧ u.status = SubStatus.free_trial ∧
       (∃ t, u.trialEndsAt = some t ∧ now ≤ t ∧ t ≤ now + 2 * msPerDay) ∧
       u.fcmTokens ≠ []))
    ∧ daysLeftOf now (now + 129600000) = 2
    ∧ daysLeftOf now (now + 72000000) = 1
    ∧ (r.daysLeft = 1 ∨ r.daysLeft = 2)
    ∧ (r.title = "⏰ Trial expires tomorrow!" ↔ r.daysLeft = 1) := by
  have hdl : ∀ c : Int, daysLeftOf now (now + c) = ceilDiv c msPerDay := by
    intro c
    have : now + c - now = c := by ring
    simp [daysLeftOf, this]
  have hmem : (r.daysLeft = 1 ∨ r.daysLeft = 2) ∧
      (r.title = "⏰ Trial expires tomorrow!" ↔ r.daysLeft = 1) := by
    simp only [checkAndSendTrialExpiryReminders, List.mem_filterMap] at hr
    obtain ⟨v, hv, hf⟩ := hr
    cases hte : v.trialEndsAt with
    | none => rw [hte] at hf; exact absurd hf (by simp)
    | some t =>
        rw [hte] at hf
        simp only at hf
        split at hf
        · rename_i hrange
          simp only [sendTrialExpiryReminder] at hf
          split at hf
          · exact absurd hf (by simp)
          · have hr2 : r = ⟨v.id, v.fcmTokens, daysLeftOf now t,
                if daysLeftOf now t = 1 then "⏰ Trial expires tomorrow!"
                  else "⏰ " ++ toString (daysLeftOf now t) ++ " days left in trial!",
                if daysLeftOf now t = 1 then
                    "Don\x27t lose your progress! Upgrade to premium now."
                  else "Continue your fitness journey with premium features. " ++
                    toString (daysLeftOf now t) ++ " days remaining."⟩ := by
              exact (Option.some.inj hf).symm
            have hd12 : daysLeftOf now t = 1 ∨ daysLeftOf now t = 2 := by omega
            have hdL : r.daysLeft = daysLeftOf now t := by rw [hr2]
            have htit : r.title = (if daysLeftOf now t = 1
                then "⏰ Trial expires tomorrow!"
                else "⏰ " ++ toString (daysLeftOf now t) ++ " days left in trial!") := by
              rw [hr2]
            refine ⟨by omega, ?_⟩
            rcases hd12 with hd | hd
            · rw [hd] at htit hdL
              simp only [if_pos rfl] at htit
              exact ⟨fun _ => hdL, fun _ => htit⟩
            · rw [hd] at htit hdL
              rw [if_neg (by decide)] at htit
              constructor
              · intro h1
                rw [htit] at h1
                exact absurd h1 (by decide)
              · intro h1
                omega
        · exact absurd hf (by simp)
  refine ⟨?_, by simpa using hdl 129600000, by simpa using hdl 72000000, hmem.1, hmem.2⟩
  constructor
  · intro hs
    simp only [trialExpirySelect, Bool.and_eq_true, beq_iff_eq,
      Bool.not_eq_true'] at hs
    obtain ⟨⟨⟨ha, hst⟩, hte⟩, htok⟩ := hs
    have htok' : u.fcmTokens ≠ [] := by
      intro hl
      rw [hl] at htok
      exact absurd htok (by decide)
    refine ⟨ha, hst, ?_, htok'⟩
    cases ht : u.trialEndsAt with
    | none => rw [ht] at hte; exact absurd hte (by simp)
    | some t =>
        rw [ht] at hte
        simp only [Option.elim, Bool.and_eq_true, decide_eq_true_eq] at hte
        exact ⟨t, rfl, hte.1, hte.2⟩
  · rintro ⟨ha, hst, ⟨t, ht, h1, h2⟩, htok⟩
    have hne : u.fcmTokens.isEmpty = false := by
      cases hfc : u.fcmTokens with
      | nil => exact absurd hfc htok
      | cons a l => rfl
    simp [trialExpirySelect, ha, hst, ht, h1, h2, hne]

/-- C6 witness: the amended theorem applied to an active trial account
expiring 36 hours from `now = 0`, which produces a plural 2-day
reminder. -/
theorem trial_expiry_selection_and_days_left_witness :
    (⟨1, ["tok"], 2, "⏰ 2 days left in trial!",
        "Continue your fitness journey with premium features. 2 days remaining."⟩ :
        TrialReminder)
      ∈ checkAndSendTrialExpiryReminders 0
          [⟨1, true, SubStatus.free_trial, some 129600000, ["tok"], true, []⟩]
    ∧ ((trialExpirySelect 0
          ⟨1, true, SubStatus.free_trial, some 129600000, ["tok"], true, []⟩ = true ↔
        ((⟨1, true, SubStatus.free_trial, some 129600000, ["tok"], true, []⟩ :
            NotifUser).isActive = true
         ∧ (⟨1, true, SubStatus.free_trial, some 129600000, ["tok"], true, []⟩ :
            NotifUser).status = SubStatus.free_trial
         ∧ (∃ t, (⟨1, true, SubStatus.free_trial, some 129600000, ["tok"], true, []⟩ :
              NotifUser).trialEndsAt = some t ∧ (0 : Int) ≤ t ∧ t ≤ 0 + 2 * msPerDay)
         ∧ (⟨1, true, SubStatus.free_trial, some 129600000, ["tok"], true, []⟩ :
            NotifUser).fcmTokens ≠ []))
       ∧ daysLeftOf 0 (0 + 129600000) = 2
       ∧ daysLeftOf 0 (0 + 72000000) = 1
       ∧ ((⟨1, ["tok"], 2, "⏰ 2 days left in trial!",
            "Continue your fitness journey with premium features. 2 days remaining."⟩ :
            TrialReminder).daysLeft = 1
          ∨ (⟨1, ["tok"], 2, "⏰ 2 days left in trial!",
              "Continue your fitness journey with premium features. 2 days remaining."⟩ :
              TrialReminder).daysLeft = 2)
       ∧ ((⟨1, ["tok"], 2, "⏰ 2 days left in trial!",
            "Continue your fitness journey with premium features. 2 days remaining."⟩ :
            TrialReminder).title = "⏰ Trial expires tomorrow!" ↔
          (⟨1, ["tok"], 2, "⏰ 2 days left in trial!",
            "Continue your fitness journey with premium features. 2 days remaining."⟩ :
            TrialReminder).daysLeft = 1)) :=
  ⟨by decide,
   trial_expiry_selection_and_days_left 0
     ⟨1, true, SubStatus.free_trial, some 129600000, ["tok"], true, []⟩
     [⟨1, true, SubStatus.free_trial, some 129600000, ["tok"], true, []⟩]
     ⟨1, ["tok"], 2, "⏰ 2 days left in trial!",
       "Continue your fitness journey with premium features. 2 days remaining."⟩
     (by decide)⟩

/-- Characterization of the per-user progress probe. -/
theorem hasProgressSince_iff (progress : List ProgressRec) (uid : Nat) (today : Int) :
    hasProgressSince progress uid today = true ↔
      ∃ rec ∈ progress, rec.userId = uid ∧ today ≤ rec.date := by
  simp [hasProgressSince, List.any_eq_true]

/-- C7: for the hour-`H` progress-reminder job (given that no progress
record is future-dated, which the creation endpoint's `date ≤ now`
validation enforces), an account is in the reminder batch iff it is
active, has notifications enabled, has `H:00` among its reminder
times, has a device token, and has no progress record dated the
current calendar day; its tokens then all appear in the single
multicast; and once a progress record dated today exists for it, a
rerun of the same job excludes it. -/
theorem progress_reminder_dedup (hour : Nat) (today : Int) (users : List NotifUser)
    (progress : List ProgressRec) (u : NotifUser)
    (hpast : ∀ rec ∈ progress, rec.date < today + msPerDay) :
    (u ∈ usersNeedingReminders hour today users progress ↔
      (u ∈ users ∧ progressCandidate hour u = true ∧
        ¬ ∃ rec ∈ progress, rec.userId = u.id ∧ today ≤ rec.date ∧
            rec.date < today + msPerDay))
    ∧ (∀ m, sendProgressReminders hour today users progress = some m →
        u ∈ usersNeedingReminders hour today users progress →
        ∀ tok ∈ u.fcmTokens, tok ∈ m.tokens)
    ∧ (∀ d, today ≤ d →
        u ∉ usersNeedingReminders hour today users (⟨u.id, d⟩ :: progress)) := by
  refine ⟨?_, ?_, ?_⟩
  · simp only [usersNeedingReminders, List.mem_filter, Bool.not_eq_true']
    constructor
    · rintro ⟨⟨hu, hcand⟩, hps⟩
      refine ⟨hu, hcand, ?_⟩
      intro hex
      obtain ⟨rec, hrec, h1, h2, _⟩ := hex
      have : hasProgressSince progress u.id today = true :=
        (hasProgressSince_iff progress u.id today).mpr ⟨rec, hrec, h1, h2⟩
      rw [this] at hps
      exact Bool.noConfusion hps
    · rintro ⟨hu, hcand, hnex⟩
      refine ⟨⟨hu, hcand⟩, ?_⟩
      cases hps : hasProgressSince progress u.id today with
      | false => rfl
      | true =>
          obtain ⟨rec, hrec, h1, h2⟩ := (hasProgressSince_iff progress u.id today).mp hps
          exact absurd ⟨rec, hrec, h1, h2, hpast rec hrec⟩ hnex
  · intro m hm hu tok htok
    simp only [sendProgressReminders] at hm
    split at hm
    · exact absurd hm (by simp)
    · have hm2 := Option.some.inj hm
      rw [← hm2]
      exact List.mem_flatMap.mpr ⟨u, hu, htok⟩
  · intro d hd
    simp only [usersNeedingReminders, List.mem_filter, Bool.not_eq_true']
    rintro ⟨⟨hu, hcand⟩, hps⟩
    have : hasProgressSince (⟨u.id, d⟩ :: progress) u.id today = true :=
      (hasProgressSince_iff _ u.id today).mpr
        ⟨⟨u.id, d⟩, List.mem_cons_self _ _, rfl, hd⟩
    rw [this] at hps
    exact Bool.noConfusion hps

/-- C7 witness: the theorem applied to the spec scenario — account 1
with reminder time 18:00, a token, and no progress dated today is in
the 18:00 batch; after it logs progress dated today, it is excluded. -/
theorem progress_reminder_dedup_witness :
    (∀ rec ∈ ([] : List ProgressRec), rec.date < 0 + msPerDay)
    ∧ (((⟨1, true, SubStatus.free_trial, none, ["tokA"], true, ["18:00"]⟩ : NotifUser)
          ∈ usersNeedingReminders 18 0
            [⟨1, true, SubStatus.free_trial, none, ["tokA"], true, ["18:00"]⟩] [] ↔
        ((⟨1, true, SubStatus.free_trial, none, ["tokA"], true, ["18:00"]⟩ : NotifUser)
            ∈ [⟨1, true, SubStatus.free_trial, none, ["tokA"], true, ["18:00"]⟩]
          ∧ progressCandidate 18
              ⟨1, true, SubStatus.free_trial, none, ["tokA"], true, ["18:00"]⟩ = true
          ∧ ¬ ∃ rec ∈ ([] : List ProgressRec),
              rec.userId = (⟨1, true, SubStatus.free_trial, none, ["tokA"], true,
                ["18:00"]⟩ : NotifUser).id ∧ (0 : Int) ≤ rec.date ∧
                rec.date < 0 + msPerDay))
       ∧ (∀ m, sendProgressReminders 18 0
            [⟨1, true, SubStatus.free_trial, none, ["tokA"], true, ["18:00"]⟩] [] = some m →
          (⟨1, true, SubStatus.free_trial, none, ["tokA"], true, ["18:00"]⟩ : NotifUser)
            ∈ usersNeedingReminders 18 0
              [⟨1, true, SubStatus.free_trial, none, ["tokA"], true, ["18:00"]⟩] [] →
          ∀ tok ∈ (⟨1, true, SubStatus.free_trial, none, ["tokA"], true,
              ["18:00"]⟩ : NotifUser).fcmTokens, tok ∈ m.tokens)
       ∧ (∀ d, (0 : Int) ≤ d →
          (⟨1, true, SubStatus.free_trial, none, ["tokA"], true, ["18:00"]⟩ : NotifUser)
            ∉ usersNeedingReminders 18 0
              [⟨1, true, SubStatus.free_trial, none, ["tokA"], true, ["18:00"]⟩]
              (⟨(⟨1, true, SubStatus.free_trial, none, ["tokA"], true,
                  ["18:00"]⟩ : NotifUser).id, d⟩ :: []))) :=
  ⟨by simp,
   progress_reminder_dedup 18 0
     [⟨1, true, SubStatus.free_trial, none, ["tokA"], true, ["18:00"]⟩] []
     ⟨1, true, SubStatus.free_trial, none, ["tokA"], true, ["18:00"]⟩
     (by simp)⟩

end Gains
